import Mathlib

/-!
Verification of the fullstack-docker-deployment demo: an Express backend with
one GET route in two variants (basic `cors()` and a hardened CORS allow-list),
and a React client that fetches `/api/message` once on mount and renders the
result. Pure application code is embedded directly from the source; the
behaviour of the surrounding frameworks (Express dispatch, the cors middleware,
React's useEffect scheduling), whose code is not part of this repository, is
modelled from the specification and the repository's own CORS guide.
-/

set_option autoImplicit false

namespace FullstackDemo

/-- JSON values, as produced by `res.json` on the server and `res.json()` on
the client. Numbers are restricted to integers; no payload in this repository
uses fractional numbers. -/
inductive Json where
  | null
  | bool (b : Bool)
  | num (n : Int)
  | str (s : String)
  | arr (elems : List Json)
  | obj (fields : List (String × Json))
deriving Repr

/-- First-match lookup in a header (or field) list, the way Node and the
browser expose headers. -/
def headerLookup (hs : List (String × String)) (k : String) : Option String :=
  (hs.find? (fun p => p.1 == k)).map (fun p => p.2)

/-- An incoming HTTP request: method, path, headers and an uninterpreted body.
The server code never reads the body (`express.json()` only parses it into
`req.body`, which no handler consults). -/
structure Request where
  method : String
  path : String
  headers : List (String × String)
  body : String
deriving Repr, DecidableEq

/-- The request's Origin header, as the cors middleware reads it. -/
def Request.origin (req : Request) : Option String :=
  headerLookup req.headers "origin"

/-- A response body: absent, a JSON document, or plain text. -/
inductive RespBody where
  | empty
  | jsonBody (j : Json)
  | textBody (s : String)
deriving Repr

/-- An outgoing HTTP response. -/
structure Response where
  status : Nat
  headers : List (String × String)
  body : RespBody
deriving Repr

/-- The constant payload of the sole route:
`res.json({ message: "Hello from Server" })`. -/
def messagePayload : Json := Json.obj [("message", Json.str "Hello from Server")]

/-- The sole route handler of both server variants, from
`app.get("/api/message", (req, res) => { res.json({ message: "Hello from Server" }) })`:
`res.json` serialises its argument, sets `Content-Type: application/json`, and
leaves the default status 200. -/
def messageHandler (_req : Request) : Response :=
  { status := 200
    headers := [("Content-Type", "application/json")]
    body := RespBody.jsonBody messagePayload }

/-- Modelled from the spec: Express's default handling for requests matching no
registered route ("the framework's default 404/500 handling" — the framework
code itself is not part of this repository): a 404 text response. -/
def frameworkDefault (req : Request) : Response :=
  { status := 404
    headers := []
    body := RespBody.textBody ("Cannot " ++ req.method ++ " " ++ req.path) }

/-- The CORS allow-list of the hardened variant, verbatim from the `origin`
array passed to `cors`. -/
def allowedOrigins : List String :=
  ["http://localhost:5173", "http://localhost:5174", "http://localhost:3000"]

/-- Modelled from the spec: `app.use(cors())` with no options (basic variant)
grants every request `Access-Control-Allow-Origin: *`. -/
def corsDefaultHeaders (_req : Request) : List (String × String) :=
  [("Access-Control-Allow-Origin", "*")]

/-- Modelled from the spec and the repository's CORS guide:
`cors({ origin: allowedOrigins, credentials: true })` (hardened variant) sets
`Access-Control-Allow-Origin` to the request's Origin exactly when that Origin
is in the allow-list (no header otherwise, and none when the request carries no
Origin), and always sets `Access-Control-Allow-Credentials: true`. -/
def corsAllowListHeaders (req : Request) : List (String × String) :=
  (match req.origin with
   | some o => if o ∈ allowedOrigins then [("Access-Control-Allow-Origin", o)] else []
   | none => []) ++
  [("Access-Control-Allow-Credentials", "true")]

/-- Whether a request matches the single registered route, `GET /api/message`. -/
def routeMatches (req : Request) : Bool :=
  req.method == "GET" && req.path == "/api/message"

/-- Middleware adding response headers in front of whatever the rest of the
pipeline produced. -/
def addHeaders (hs : List (String × String)) (r : Response) : Response :=
  { r with headers := hs ++ r.headers }

/-- The basic server variant: `express.json()` (reads no route's behaviour),
`cors()`, then the one route; anything else falls to the framework default. -/
def basicServer (req : Request) : Response :=
  addHeaders (corsDefaultHeaders req)
    (if routeMatches req then messageHandler req else frameworkDefault req)

/-- The hardened server variant: `express.json()`, the allow-list cors
configuration, then the same single route. -/
def hardenedServer (req : Request) : Response :=
  addHeaders (corsAllowListHeaders req)
    (if routeMatches req then messageHandler req else frameworkDefault req)

/-- The `PORT` constant of the basic variant. -/
def basicPort : Nat := 3000

/-- The `PORT` constant of the hardened variant. -/
def hardenedPort : Nat := 3000

/-- The port `app.listen` binds in the basic variant, as a function of the
process environment: the source consults no environment variable. -/
def basicListenPort (_env : List (String × String)) : Nat := basicPort

/-- The port `app.listen` binds in the hardened variant, likewise constant. -/
def hardenedListenPort (_env : List (String × String)) : Nat := hardenedPort

/-- Serving a sequence of requests one after the other. The application
installs no state shared across requests, so the serve loop is a pure map of
the per-request function. -/
def serveAll (server : Request → Response) : List Request → List Response
  | [] => []
  | r :: rs => server r :: serveAll server rs

/-! ## Client: the React App component -/

/-- A JavaScript value as far as the client code observes one: either
`undefined` or a JSON value (everything `res.json()` can resolve to). -/
inductive JsVal where
  | undef
  | jsonV (j : Json)
deriving Repr

/-- JavaScript member access, `data.message`: it throws a TypeError when the
receiver is `null`, yields the field's value on an object that has it,
`undefined` on an object that lacks it, and `undefined` on any other non-null
receiver (numbers, strings, booleans and arrays have no own `message`
property). -/
def jsMember (v : Json) (key : String) : Except Unit JsVal :=
  match v with
  | Json.null => Except.error ()
  | Json.obj fields =>
      Except.ok (match fields.find? (fun p => p.1 == key) with
                 | some p => JsVal.jsonV p.2
                 | none => JsVal.undef)
  | _ => Except.ok JsVal.undef

/-- The client's view state: the `message` state hook and the console log so
far. -/
structure ClientState where
  message : JsVal
  logs : List String
deriving Repr

/-- The state a freshly mounted App starts from: `useState("")` and an empty
console. -/
def clientInit : ClientState :=
  { message := JsVal.jsonV (Json.str ""), logs := [] }

/-- The one string the catch handler logs, verbatim from the source. -/
def fetchErrorLine : String :=
  "Error fetching the data from http://localhost:3000/api/message"

/-- How one `fetch("/api/message")` can turn out, as observed by the promise
chain: the fetch itself rejects (server unreachable), the response arrives but
`res.json()` rejects (body is not valid JSON), or `res.json()` resolves with a
JSON value. -/
inductive FetchOutcome where
  | networkReject
  | resolvedBadJson
  | resolvedJson (data : Json)
deriving Repr

/-- The effect body's promise chain,
`fetch("/api/message").then((res) => res.json()).then((data) => setMessage(data.message)).catch((err) => console.log(...))`:
any rejection along the chain — including a throw inside the second `then`
callback — lands in the single catch handler, which logs one line and leaves
the message state untouched. -/
def runFetchEffect (o : FetchOutcome) (s : ClientState) : ClientState :=
  match o with
  | FetchOutcome.networkReject => { s with logs := s.logs ++ [fetchErrorLine] }
  | FetchOutcome.resolvedBadJson => { s with logs := s.logs ++ [fetchErrorLine] }
  | FetchOutcome.resolvedJson data =>
      match jsMember data "message" with
      | Except.error _ => { s with logs := s.logs ++ [fetchErrorLine] }
      | Except.ok v => { s with message := v }

/-- React's rendering of a JSON value used as a child, as text: `null` and
booleans render as nothing, strings as themselves, numbers via their decimal
representation, an array element-wise in order; a plain object is not a valid
React child and makes the render throw. -/
def renderChild : Json → Except Unit String
  | Json.null => Except.ok ""
  | Json.bool _ => Except.ok ""
  | Json.num n => Except.ok (toString n)
  | Json.str s => Except.ok s
  | Json.arr elems => renderElems elems
  | Json.obj _ => Except.error ()
where
  /-- Renders the elements of an array child in order. -/
  renderElems : List Json → Except Unit String
  | [] => Except.ok ""
  | x :: xs => do
      let h ← renderChild x
      let t ← renderElems xs
      Except.ok (h ++ t)

/-- Rendering of the value held in the message state; `undefined` renders as
nothing. -/
def renderVal : JsVal → Except Unit String
  | JsVal.undef => Except.ok ""
  | JsVal.jsonV j => renderChild j

/-- The App component's render output, as the text of its two headings:
`<h1>Production Code</h1>` and `<h2>Data from backend: {message}</h2>`. -/
def renderApp (s : ClientState) : Except Unit (String × String) := do
  let m ← renderVal s.message
  Except.ok ("Production Code", "Data from backend: " ++ m)

/-! ## Client: useEffect scheduling -/

/-- The dependency array literal the App passes to `useEffect`: `[]`. -/
def appEffectDeps : List Json := []

/-- The network calls one run of the App's effect body issues: a single fetch
of the relative path `/api/message`. -/
def appEffectCalls : List String := ["/api/message"]

/-- Structural equality of JSON values, used below to compare dependency
arrays the way React compares them element-wise. -/
def jsonBeq : Json → Json → Bool
  | Json.null, Json.null => true
  | Json.bool a, Json.bool b => a == b
  | Json.num a, Json.num b => a == b
  | Json.str a, Json.str b => a == b
  | Json.arr xs, Json.arr ys => jsonListBeq xs ys
  | Json.obj xs, Json.obj ys => jsonFieldsBeq xs ys
  | _, _ => false
where
  /-- Element-wise comparison of JSON lists. -/
  jsonListBeq : List Json → List Json → Bool
    | [], [] => true
    | x :: xs, y :: ys => jsonBeq x y && jsonListBeq xs ys
    | _, _ => false
  /-- Element-wise comparison of JSON field lists. -/
  jsonFieldsBeq : List (String × Json) → List (String × Json) → Bool
    | [], [] => true
    | (k, x) :: xs, (l, y) :: ys => k == l && jsonBeq x y && jsonFieldsBeq xs ys
    | _, _ => false

/-- Modelled from React's documented `useEffect` semantics: whether the effect
re-runs after an update — exactly when the current dependency array differs
from the one recorded at the effect's previous run. -/
def depsChanged (prev cur : List Json) : Bool :=
  !(jsonBeq.jsonListBeq prev cur)

/-- Modelled from React's documented `useEffect` semantics: network calls
issued over a number of re-renders of a mounted App, `prev` being the
dependency array recorded when the effect last ran. Each re-render presents
the dependency literal `appEffectDeps` again and runs the effect only if it
differs from `prev`. -/
def callsFromUpdates (prev : List Json) : Nat → List String
  | 0 => []
  | n + 1 =>
      if depsChanged prev appEffectDeps
      then appEffectCalls ++ callsFromUpdates appEffectDeps n
      else callsFromUpdates prev n

/-- Modelled from React's documented `useEffect` semantics: the network calls
one mount of the App issues across its initial render (after which the effect
always runs once) and any number of subsequent re-renders. -/
def callsDuringMount (updates : Nat) : List String :=
  appEffectCalls ++ callsFromUpdates appEffectDeps updates

/-- The network calls issued by a sequence of independent mounts of the App,
each living through its own number of re-renders. -/
def callsForMounts (mounts : List Nat) : List String :=
  (mounts.map callsDuringMount).flatten

/-! ## Helper lemmas -/

/-- The headers of the hardened variant's response are the CORS headers
followed by the matched handler's (or the 404 default's) headers. -/
lemma hardenedServer_headers (req : Request) :
    (hardenedServer req).headers =
      corsAllowListHeaders req ++
        (if routeMatches req then [("Content-Type", "application/json")] else []) := by
  unfold hardenedServer addHeaders messageHandler frameworkDefault
  split <;> rfl

/-- Case analysis of the hardened CORS headers: either the request's Origin is
absent or outside the allow-list and only the credentials header is emitted, or
the Origin is allowed and is echoed back ahead of the credentials header. -/
lemma corsAllowListHeaders_cases (req : Request) :
    ((∀ o, req.origin = some o → o ∉ allowedOrigins) ∧
      corsAllowListHeaders req = [("Access-Control-Allow-Credentials", "true")]) ∨
      ∃ o, req.origin = some o ∧ o ∈ allowedOrigins ∧
        corsAllowListHeaders req =
          [("Access-Control-Allow-Origin", o), ("Access-Control-Allow-Credentials", "true")] := by
  cases h : req.origin with
  | none =>
      exact Or.inl ⟨fun o ho => (nomatch ho), by unfold corsAllowListHeaders; rw [h]; rfl⟩
  | some o =>
      by_cases ho : o ∈ allowedOrigins
      · exact Or.inr ⟨o, rfl, ho, by unfold corsAllowListHeaders; rw [h]; simp [ho]⟩
      · refine Or.inl ⟨fun o' ho' => ?_, by unfold corsAllowListHeaders; rw [h]; simp [ho]⟩
        cases ho'
        exact ho

/-- Serving a request list is a pure map: each response depends only on its
own request, there is no state carried across requests. -/
lemma serveAll_eq_map (server : Request → Response) (rs : List Request) :
    serveAll server rs = rs.map server := by
  induction rs with
  | nil => rfl
  | cons r rs ih => simp [serveAll, ih]

/-- With the constant `[]` dependency array, re-renders never re-run the
effect. -/
lemma callsFromUpdates_nil (n : Nat) :
    callsFromUpdates appEffectDeps n = [] := by
  induction n with
  | zero => rfl
  | succ n ih =>
      simpa [callsFromUpdates, depsChanged, appEffectDeps, jsonBeq.jsonListBeq] using ih

/-! ## Claim theorems -/

/-- C1: every GET request to `/api/message`, in both server variants, is
answered with status 200, a body that is exactly the JSON object
`{"message": "Hello from Server"}`, and `Content-Type: application/json`,
whatever the request's body and headers are. -/
theorem get_message_always_hello (req : Request)
    (hm : req.method = "GET") (hp : req.path = "/api/message") :
    (basicServer req).status = 200 ∧
    (basicServer req).body = RespBody.jsonBody messagePayload ∧
    headerLookup (basicServer req).headers "Content-Type" = some "application/json" ∧
    (hardenedServer req).status = 200 ∧
    (hardenedServer req).body = RespBody.jsonBody messagePayload ∧
    headerLookup (hardenedServer req).headers "Content-Type" = some "application/json" := by
  have hr : routeMatches req = true := by simp [routeMatches, hm, hp]
  refine ⟨?_, ?_, ?_, ?_, ?_, ?_⟩
  · simp [basicServer, addHeaders, hr, messageHandler]
  · simp [basicServer, addHeaders, hr, messageHandler]
  · simp [basicServer, addHeaders, hr, messageHandler, corsDefaultHeaders, headerLookup]
  · simp [hardenedServer, addHeaders, hr, messageHandler]
  · simp [hardenedServer, addHeaders, hr, messageHandler]
  · rw [hardenedServer_headers req]
    rcases corsAllowListHeaders_cases req with ⟨-, hc⟩ | ⟨o, -, -, hc⟩ <;>
      simp [hc, hr, headerLookup]

/-- C1 witness: a concrete GET request carrying a disallowed Origin, a stray
header and a nonempty body still receives the canonical 200 JSON answer from
both variants. -/
theorem get_message_always_hello_witness :
    (basicServer ⟨"GET", "/api/message", [("origin", "http://evil.example"), ("x-debug", "1")], "ignored"⟩).status = 200 ∧
    (basicServer ⟨"GET", "/api/message", [("origin", "http://evil.example"), ("x-debug", "1")], "ignored"⟩).body = RespBody.jsonBody messagePayload ∧
    headerLookup (basicServer ⟨"GET", "/api/message", [("origin", "http://evil.example"), ("x-debug", "1")], "ignored"⟩).headers "Content-Type" = some "application/json" ∧
    (hardenedServer ⟨"GET", "/api/message", [("origin", "http://evil.example"), ("x-debug", "1")], "ignored"⟩).status = 200 ∧
    (hardenedServer ⟨"GET", "/api/message", [("origin", "http://evil.example"), ("x-debug", "1")], "ignored"⟩).body = RespBody.jsonBody messagePayload ∧
    headerLookup (hardenedServer ⟨"GET", "/api/message", [("origin", "http://evil.example"), ("x-debug", "1")], "ignored"⟩).headers "Content-Type" = some "application/json" :=
  get_message_always_hello ⟨"GET", "/api/message", [("origin", "http://evil.example"), ("x-debug", "1")], "ignored"⟩ rfl rfl

/-- C2: in the hardened variant, for every request,
`Access-Control-Allow-Origin` is granted exactly when the request's Origin is
one of the three allow-listed origins (in which case that Origin is echoed
back), and every response carries `Access-Control-Allow-Credentials: true`. -/
theorem hardened_grant_iff_allow_listed (req : Request) (o : String) :
    (headerLookup (hardenedServer req).headers "Access-Control-Allow-Origin" = some o ↔
      req.origin = some o ∧ o ∈ allowedOrigins) ∧
    headerLookup (hardenedServer req).headers "Access-Control-Allow-Credentials" = some "true" := by
  rw [hardenedServer_headers req]
  rcases corsAllowListHeaders_cases req with ⟨hdeny, hc⟩ | ⟨oo, hor, hmem, hc⟩
  · rw [hc]
    constructor
    · by_cases hr : routeMatches req <;>
        · simp only [hr, if_true, if_false, headerLookup]
          refine iff_of_false (by simp [List.find?]) ?_
          rintro ⟨ho, hmem⟩
          exact hdeny o ho hmem
    · by_cases hr : routeMatches req <;> simp [hr, headerLookup, List.find?]
  · rw [hc]
    constructor
    · by_cases hr : routeMatches req <;>
        · simp only [hr, if_true, if_false, headerLookup, List.find?]
          constructor
          · intro h
            simp only [List.find?, String.reduceBEq, Option.map_some] at h
            rcases h with h
            simp at h
            exact h ▸ ⟨hor, hmem⟩
          · rintro ⟨ho, -⟩
            rw [hor] at ho
            cases ho
            simp
    · by_cases hr : routeMatches req <;> simp [hr, headerLookup, List.find?]

/-- C3: in the hardened variant, a request whose Origin is outside the
allow-list gets a response with no `Access-Control-Allow-Origin` header at all,
yet is still answered (with the route's 200 or the default 404). -/
theorem disallowed_origin_no_grant (req : Request) (o : String)
    (ho : req.origin = some o) (hno : o ∉ allowedOrigins) :
    headerLookup (hardenedServer req).headers "Access-Control-Allow-Origin" = none ∧
    ((hardenedServer req).status = 200 ∨ (hardenedServer req).status = 404) := by
  have hc : corsAllowListHeaders req = [("Access-Control-Allow-Credentials", "true")] := by
    unfold corsAllowListHeaders
    rw [ho]
    simp [hno]
  constructor
  · rw [hardenedServer_headers req, hc]
    by_cases hr : routeMatches req <;> simp [hr, headerLookup, List.find?]
  · unfold hardenedServer addHeaders
    by_cases hr : routeMatches req <;> simp [hr, messageHandler, frameworkDefault]

/-- C3 witness: a concrete request from `http://evil.example` to the route is
answered without any CORS origin grant. -/
theorem disallowed_origin_no_grant_witness :
    headerLookup (hardenedServer ⟨"GET", "/api/message", [("origin", "http://evil.example")], ""⟩).headers
        "Access-Control-Allow-Origin" = none ∧
    ((hardenedServer ⟨"GET", "/api/message", [("origin", "http://evil.example")], ""⟩).status = 200 ∨
      (hardenedServer ⟨"GET", "/api/message", [("origin", "http://evil.example")], ""⟩).status = 404) :=
  disallowed_origin_no_grant ⟨"GET", "/api/message", [("origin", "http://evil.example")], ""⟩
    "http://evil.example" rfl (by decide)

/-- C4: when the fetch succeeds and the parsed body's `message` field is a
string, the client stores exactly that string in its message state, logs
nothing, and renders it verbatim after the fixed label. -/
theorem client_stores_message_verbatim (data : Json) (s : String)
    (h : jsMember data "message" = Except.ok (JsVal.jsonV (Json.str s))) :
    (runFetchEffect (FetchOutcome.resolvedJson data) clientInit).message = JsVal.jsonV (Json.str s) ∧
    (runFetchEffect (FetchOutcome.resolvedJson data) clientInit).logs = [] ∧
    renderApp (runFetchEffect (FetchOutcome.resolvedJson data) clientInit) =
      Except.ok ("Production Code", "Data from backend: " ++ s) := by
  have hrun : runFetchEffect (FetchOutcome.resolvedJson data) clientInit =
      { message := JsVal.jsonV (Json.str s), logs := [] } := by
    simp only [runFetchEffect]
    rw [h]
    rfl
  refine ⟨?_, ?_, ?_⟩ <;> rw [hrun]
  rfl

/-- C4 witness: the canonical payload `{"message": "Hello from Server"}` is
stored and displayed verbatim. -/
theorem client_stores_message_verbatim_witness :
    (runFetchEffect (FetchOutcome.resolvedJson (Json.obj [("message", Json.str "Hello from Server")])) clientInit).message =
      JsVal.jsonV (Json.str "Hello from Server") ∧
    (runFetchEffect (FetchOutcome.resolvedJson (Json.obj [("message", Json.str "Hello from Server")])) clientInit).logs = [] ∧
    renderApp (runFetchEffect (FetchOutcome.resolvedJson (Json.obj [("message", Json.str "Hello from Server")])) clientInit) =
      Except.ok ("Production Code", "Data from backend: " ++ "Hello from Server") :=
  client_stores_message_verbatim (Json.obj [("message", Json.str "Hello from Server")])
    "Hello from Server" rfl

/-- C5: when the fetch chain rejects (server unreachable), the client ends up
with its message state still the initial empty string, exactly one console log
line, and a render that completes without an exception. -/
theorem network_failure_logs_once :
    runFetchEffect FetchOutcome.networkReject clientInit =
      { message := JsVal.jsonV (Json.str ""), logs := [fetchErrorLine] } ∧
    (runFetchEffect FetchOutcome.networkReject clientInit).message = clientInit.message ∧
    (runFetchEffect FetchOutcome.networkReject clientInit).logs.length = 1 ∧
    renderApp (runFetchEffect FetchOutcome.networkReject clientInit) =
      Except.ok ("Production Code", "Data from backend: ") :=
  ⟨rfl, rfl, rfl, rfl⟩

/-- C6: over any sequence of mounts, each re-rendered any number of times, the
App issues exactly one fetch per mount, always to the relative path
`/api/message` — never a second one within the same mount, while a further
mount contributes exactly one further request. -/
theorem one_fetch_per_mount (mounts : List Nat) :
    callsForMounts mounts = List.replicate mounts.length "/api/message" := by
  induction mounts with
  | nil => rfl
  | cons u us ih =>
      have h1 : callsDuringMount u = ["/api/message"] := by
        simp [callsDuringMount, appEffectCalls, callsFromUpdates_nil]
      calc callsForMounts (u :: us)
          = callsDuringMount u ++ callsForMounts us := by simp [callsForMounts]
        _ = "/api/message" :: callsForMounts us := by rw [h1]; rfl
        _ = "/api/message" :: List.replicate us.length "/api/message" := by rw [ih]
        _ = List.replicate (u :: us).length "/api/message" := by
              simp [List.replicate_succ]

/-- C7: both variants bind port 3000 as a constant; the bound port is the same
whatever the process environment holds. -/
theorem listen_port_fixed (env env' : List (String × String)) :
    basicListenPort env = 3000 ∧ hardenedListenPort env' = 3000 ∧
    basicPort = 3000 ∧ hardenedPort = 3000 :=
  ⟨rfl, rfl, rfl, rfl⟩

/-- C8: a request that does not match `GET /api/message` is answered by the
framework default alone (the CORS headers plus the default 404 in both
variants), and serving a request sequence is a pure map — no state is carried
from one request to the next. -/
theorem unmatched_requests_default (req : Request) (h : routeMatches req = false) :
    basicServer req = addHeaders (corsDefaultHeaders req) (frameworkDefault req) ∧
    (basicServer req).status = 404 ∧
    (basicServer req).body = RespBody.textBody ("Cannot " ++ req.method ++ " " ++ req.path) ∧
    hardenedServer req = addHeaders (corsAllowListHeaders req) (frameworkDefault req) ∧
    (hardenedServer req).status = 404 ∧
    (∀ rs : List Request, serveAll basicServer rs = rs.map basicServer) ∧
    (∀ rs : List Request, serveAll hardenedServer rs = rs.map hardenedServer) := by
  refine ⟨?_, ?_, ?_, ?_, ?_, serveAll_eq_map basicServer, serveAll_eq_map hardenedServer⟩ <;>
    simp [basicServer, hardenedServer, h, addHeaders, frameworkDefault]

/-- C8 witness: a POST to the route's path and a GET to an unknown path both
fall to the 404 default. -/
theorem unmatched_requests_default_witness :
    (basicServer ⟨"POST", "/api/message", [], ""⟩).status = 404 ∧
    (hardenedServer ⟨"GET", "/api/nope", [], ""⟩).status = 404 :=
  ⟨(unmatched_requests_default ⟨"POST", "/api/message", [], ""⟩ rfl).2.1,
   (unmatched_requests_default ⟨"GET", "/api/nope", [], ""⟩ rfl).2.2.2.2.1⟩

/-- C9: the basic variant grants `Access-Control-Allow-Origin: *` to every
request — whatever its origin, method or path — so no origin is ever denied
the CORS grant there. -/
theorem basic_variant_wildcard_grant (req : Request) :
    headerLookup (basicServer req).headers "Access-Control-Allow-Origin" = some "*" := by
  unfold basicServer addHeaders corsDefaultHeaders
  by_cases hr : routeMatches req <;> simp [hr, headerLookup, List.find?]

/-- C10 counterexample: the body `null` parses as JSON and lacks a `message`
field, yet the client does not store `undefined`: the member access throws, the
catch handler logs one line, and the message state keeps the initial empty
string. -/
theorem null_body_refutes_undefined_storing :
    (runFetchEffect (FetchOutcome.resolvedJson Json.null) clientInit).message ≠ JsVal.undef ∧
    (runFetchEffect (FetchOutcome.resolvedJson Json.null) clientInit).message =
      JsVal.jsonV (Json.str "") ∧
    (runFetchEffect (FetchOutcome.resolvedJson Json.null) clientInit).logs = [fetchErrorLine] :=
  ⟨fun h => (nomatch h), rfl, rfl⟩

/-- C10 (amended): a successfully parsed body other than `null` that lacks a
`message` field makes the client store `undefined` and render, exception-free,
an empty text after the fixed label; for the body `null` the member access
throws instead, so the catch handler logs once, the message stays the initial
empty string, and the render is again exception-free with empty text after the
label. -/
theorem missing_field_stores_undefined (data : Json)
    (h : jsMember data "message" = Except.ok JsVal.undef) :
    (runFetchEffect (FetchOutcome.resolvedJson data) clientInit).message = JsVal.undef ∧
    (runFetchEffect (FetchOutcome.resolvedJson data) clientInit).logs = [] ∧
    renderApp (runFetchEffect (FetchOutcome.resolvedJson data) clientInit) =
      Except.ok ("Production Code", "Data from backend: ") ∧
    (runFetchEffect (FetchOutcome.resolvedJson Json.null) clientInit).message =
      JsVal.jsonV (Json.str "") ∧
    (runFetchEffect (FetchOutcome.resolvedJson Json.null) clientInit).logs = [fetchErrorLine] ∧
    renderApp (runFetchEffect (FetchOutcome.resolvedJson Json.null) clientInit) =
      Except.ok ("Production Code", "Data from backend: ") := by
  have hrun : runFetchEffect (FetchOutcome.resolvedJson data) clientInit =
      { message := JsVal.undef, logs := [] } := by
    simp only [runFetchEffect]
    rw [h]
    rfl
  exact ⟨by rw [hrun], by rw [hrun], by rw [hrun]; rfl, rfl, rfl, rfl⟩

/-- C10 witness: the empty JSON object lacks a `message` field and leads to an
`undefined` message state rendered as empty text. -/
theorem missing_field_stores_undefined_witness :
    (runFetchEffect (FetchOutcome.resolvedJson (Json.obj [])) clientInit).message = JsVal.undef ∧
    (runFetchEffect (FetchOutcome.resolvedJson (Json.obj [])) clientInit).logs = [] ∧
    renderApp (runFetchEffect (FetchOutcome.resolvedJson (Json.obj [])) clientInit) =
      Except.ok ("Production Code", "Data from backend: ") ∧
    (runFetchEffect (FetchOutcome.resolvedJson Json.null) clientInit).message =
      JsVal.jsonV (Json.str "") ∧
    (runFetchEffect (FetchOutcome.resolvedJson Json.null) clientInit).logs = [fetchErrorLine] ∧
    renderApp (runFetchEffect (FetchOutcome.resolvedJson Json.null) clientInit) =
      Except.ok ("Production Code", "Data from backend: ") :=
  missing_field_stores_undefined (Json.obj []) rfl

end FullstackDemo
